import Mathlib

/-!
Verification of the Milton OpenSea trading bot.

Shallow embedding of `src/OpenSeaBot.js` (class `OpenSeaBot`), `config.js`
and `main.js`.  Monetary wei amounts are `Nat`; human-readable ether
amounts (produced by `formatEther`, consumed by `parseEther`) are `ℚ`.
External collaborators (the marketplace HTTP API, the chain provider, the
Seaport SDK) are modelled as explicit environment records holding the
values their calls would return; a call that can fail is an `Except` or
`Option` field of the environment.
-/

namespace Milton

/-- `DEFAULT_CONFIG` merged with user overrides (`config.js` / constructor
line `this.config = { ...DEFAULT_CONFIG, ...config }`). -/
structure Config where
  buyThreshold : ℚ
  offerPercentage : ℚ
  maxGasPrice : ℕ
  pollingInterval : ℕ
  errorRetryDelay : ℕ
deriving DecidableEq, Repr

/-- User-supplied overrides: each absent key falls back to the default,
as JS object spread does. -/
structure ConfigOverride where
  buyThreshold : Option ℚ := none
  offerPercentage : Option ℚ := none
  maxGasPrice : Option ℕ := none
  pollingInterval : Option ℕ := none
  errorRetryDelay : Option ℕ := none
deriving DecidableEq, Repr

/-- `DEFAULT_CONFIG` from `config.js`: threshold 0.1 ETH, offer 80 %,
max gas 50 gwei, poll 60 s, error retry 30 s. -/
def DEFAULT_CONFIG : Config where
  buyThreshold := 1/10
  offerPercentage := 4/5
  maxGasPrice := 50
  pollingInterval := 60000
  errorRetryDelay := 30000

/-- `{ ...DEFAULT_CONFIG, ...config }` in the constructor. -/
def mergeConfig (c : ConfigOverride) : Config where
  buyThreshold := c.buyThreshold.getD DEFAULT_CONFIG.buyThreshold
  offerPercentage := c.offerPercentage.getD DEFAULT_CONFIG.offerPercentage
  maxGasPrice := c.maxGasPrice.getD DEFAULT_CONFIG.maxGasPrice
  pollingInterval := c.pollingInterval.getD DEFAULT_CONFIG.pollingInterval
  errorRetryDelay := c.errorRetryDelay.getD DEFAULT_CONFIG.errorRetryDelay

/-- `listing.asset` payload: `token_id` and `asset_contract.address`. -/
structure Asset where
  token_id : String
  asset_contract_address : String
deriving DecidableEq, Repr

/-- One element of the `asset_events` array returned by the events
endpoint.  `asset` is `Option` because `monitorCollection` guards
`if (!listing.asset) continue`.  `ending_price` is a wei amount. -/
structure Listing where
  asset : Option Asset
  ending_price : ℕ
deriving DecidableEq, Repr

/-- `parseFloat(ethers.utils.formatEther(listing.ending_price))`:
the wei amount scaled to ether.  Modelled exactly in `ℚ`. -/
def listingPriceEth (l : Listing) : ℚ :=
  (l.ending_price : ℚ) / 10 ^ 18

/-- The decision `monitorCollection` takes per listing. -/
inductive ActionDecision where
  | buy (contract tokenId : String) (price : ℚ)
  | offer (contract tokenId : String) (offerAmount : ℚ)
deriving DecidableEq, Repr

/-- The classification step of `monitorCollection` (lines 44-66):
skip a listing with no asset; buy when `price < this.config.buyThreshold`;
otherwise offer `price * this.config.offerPercentage`. -/
def classifyListing (cfg : Config) (l : Listing) : Option ActionDecision :=
  match l.asset with
  | none => none
  | some a =>
    let price := listingPriceEth l
    if price < cfg.buyThreshold then
      some (.buy a.asset_contract_address a.token_id price)
    else
      some (.offer a.asset_contract_address a.token_id (price * cfg.offerPercentage))

/-- Fixed sample listing used by concrete witnesses. -/
def sampleAsset : Asset where
  token_id := "42"
  asset_contract_address := "0xabc"

/-- Asset-bearing listing at 0.05 ETH (5 * 10^16 wei). -/
def sampleListing : Listing where
  asset := some sampleAsset
  ending_price := 50000000000000000

/-- C1: for every listing with a resolvable asset, the price is
non-negative and classification is pure and total: strictly below the
threshold the decision is Buy with that contract, tokenId and price;
at or above the threshold (equality included) the decision is Offer
with offerAmount = price * offerPercentage. -/
theorem C1_classifier_decision (cfg : Config) (l : Listing) (a : Asset)
    (h : l.asset = some a) :
    0 ≤ listingPriceEth l ∧
    (listingPriceEth l < cfg.buyThreshold →
      classifyListing cfg l =
        some (.buy a.asset_contract_address a.token_id (listingPriceEth l))) ∧
    (cfg.buyThreshold ≤ listingPriceEth l →
      classifyListing cfg l =
        some (.offer a.asset_contract_address a.token_id
          (listingPriceEth l * cfg.offerPercentage))) := by
  refine ⟨?_, ?_, ?_⟩
  · unfold listingPriceEth
    positivity
  · intro hlt
    simp [classifyListing, h, hlt]
  · intro hge
    simp [classifyListing, h, not_lt.mpr hge]

/-- C1 witness: concrete instantiation at the sample listing
(price 0.05 ETH, default threshold 0.1 ETH, Buy branch). -/
theorem C1_classifier_decision_witness :
    sampleListing.asset = some sampleAsset ∧
    0 ≤ listingPriceEth sampleListing ∧
    listingPriceEth sampleListing < DEFAULT_CONFIG.buyThreshold ∧
    classifyListing DEFAULT_CONFIG sampleListing =
      some (.buy sampleAsset.asset_contract_address sampleAsset.token_id
        (listingPriceEth sampleListing)) :=
  ⟨rfl,
   (C1_classifier_decision DEFAULT_CONFIG sampleListing sampleAsset rfl).1,
   by norm_num [listingPriceEth, sampleListing, DEFAULT_CONFIG],
   (C1_classifier_decision DEFAULT_CONFIG sampleListing sampleAsset rfl).2.1
     (by norm_num [listingPriceEth, sampleListing, DEFAULT_CONFIG])⟩

/-- Environment feeding one iteration of the `while (true)` loop of
`monitorCollection`: what the events endpoint would return, and which
listings' executor calls (`buyNow` / `makeOffer`) would throw. -/
structure CycleEnv where
  fetchResult : Except String (List Listing)
  executorFails : Listing → Bool

/-- `fetchNewListings` (lines 82-99): the axios call sits in its own
try/catch; on failure the error is logged and the empty list is returned,
so a fetch failure never escapes this method.  Second component records
whether the failure log fired. -/
def fetchNewListings (r : Except String (List Listing)) : List Listing × Bool :=
  match r with
  | .ok events => (events, false)
  | .error _ => ([], true)

/-- The `for (const listing of listings)` loop (lines 44-67).  A listing
without an asset is skipped.  There is no per-listing catch: when an
executor throws, the exception escapes the loop to the catch at line 70,
so the remaining listings of the batch are not processed.  Returns the
listings whose executor was invoked and the loop outcome. -/
def dispatchBatch (executorFails : Listing → Bool) :
    List Listing → List Listing × Except String Unit
  | [] => ([], .ok ())
  | l :: rest =>
    match l.asset with
    | none => dispatchBatch executorFails rest
    | some _ =>
      if executorFails l then
        ([l], .error "executor failed")
      else
        let r := dispatchBatch executorFails rest
        (l :: r.1, r.2)

/-- Observable outcome of one loop iteration. -/
structure CycleResult where
  invoked : List Listing
  fetchFailureLogged : Bool
  monitoringErrorLogged : Bool
  sleep : ℕ
deriving DecidableEq, Repr

/-- One iteration of `monitorCollection`s loop (lines 40-74): fetch
(failures absorbed inside `fetchNewListings`), dispatch, then sleep
`pollingInterval`; the catch at line 70 fires only for exceptions from
the dispatch phase, logs them, and sleeps `errorRetryDelay`. -/
def monitorCycle (cfg : Config) (env : CycleEnv) : CycleResult :=
  let fetched := fetchNewListings env.fetchResult
  let dispatched := dispatchBatch env.executorFails fetched.1
  match dispatched.2 with
  | .ok _ =>
    { invoked := dispatched.1, fetchFailureLogged := fetched.2,
      monitoringErrorLogged := false, sleep := cfg.pollingInterval }
  | .error _ =>
    { invoked := dispatched.1, fetchFailureLogged := fetched.2,
      monitoringErrorLogged := true, sleep := cfg.errorRetryDelay }

/-- The unbounded `while (true)` loop, run over a finite stream of cycle
environments: every environment is processed, each cycle starting with a
FETCH — no cycle outcome terminates the loop. -/
def monitorRun (cfg : Config) : List CycleEnv → List CycleResult
  | [] => []
  | e :: rest => monitorCycle cfg e :: monitorRun cfg rest

/-- First listing of the 3-listing counterexample batch. -/
def batchListing1 : Listing where
  asset := some { token_id := "1", asset_contract_address := "0xabc" }
  ending_price := 10 ^ 16

/-- Second listing: its executor throws. -/
def batchListing2 : Listing where
  asset := some { token_id := "2", asset_contract_address := "0xabc" }
  ending_price := 2 * 10 ^ 16

/-- Third listing of the batch. -/
def batchListing3 : Listing where
  asset := some { token_id := "3", asset_contract_address := "0xabc" }
  ending_price := 3 * 10 ^ 16

/-- Cycle environment where the fetch succeeds with three listings and
exactly the second listing's executor throws. -/
def failingSecondEnv : CycleEnv where
  fetchResult := .ok [batchListing1, batchListing2, batchListing3]
  executorFails := fun l => l == batchListing2

/-- C2 counterexample: in a 3-listing batch where the 2nd listing's
executor throws, the 3rd listing's executor is NOT invoked — the
exception escapes the for-loop to the cycle-level catch, aborting the
rest of the batch, contrary to the claim. -/
theorem C2_counterexample_third_listing_skipped :
    batchListing3 ∉ (monitorCycle DEFAULT_CONFIG failingSecondEnv).invoked ∧
    (monitorCycle DEFAULT_CONFIG failingSecondEnv).invoked =
      [batchListing1, batchListing2] := by
  decide

/-- C2 amended: an executor failure is caught and logged by the
cycle-level catch and does not terminate the monitoring loop — the cycle
completes, sleeps `errorRetryDelay`, and the loop proceeds to the next
cycle — but it aborts the remaining listings of the same batch: with a
3-listing batch whose 2nd listing's executor throws, the executors for
listings 1 and 2 are invoked and the executor for listing 3 is not. -/
theorem C2_dispatch_failure_aborts_batch (cfg : Config) (env : CycleEnv)
    (l1 l2 l3 : Listing) (a1 : Asset)
    (h1 : l1.asset = some a1) (h2 : l2.asset.isSome)
    (hf : env.fetchResult = .ok [l1, l2, l3])
    (e1 : env.executorFails l1 = false) (e2 : env.executorFails l2 = true)
    (hne : l3 ∉ [l1, l2]) :
    (monitorCycle cfg env).invoked = [l1, l2] ∧
    l3 ∉ (monitorCycle cfg env).invoked ∧
    (monitorCycle cfg env).monitoringErrorLogged = true ∧
    (monitorCycle cfg env).sleep = cfg.errorRetryDelay ∧
    (∀ rest, monitorRun cfg (env :: rest) =
      monitorCycle cfg env :: monitorRun cfg rest) := by
  obtain ⟨a2, ha2⟩ := Option.isSome_iff_exists.mp h2
  have hcycle : monitorCycle cfg env =
      { invoked := [l1, l2], fetchFailureLogged := false,
        monitoringErrorLogged := true, sleep := cfg.errorRetryDelay } := by
    simp [monitorCycle, fetchNewListings, hf, dispatchBatch, h1, ha2, e1, e2]
  refine ⟨by rw [hcycle], ?_, by rw [hcycle], by rw [hcycle], fun rest => rfl⟩
  rw [hcycle]
  simpa using hne

/-- C2 amended witness: the concrete 3-listing environment — executors
run for listings 1 and 2, not 3; the cycle logs and sleeps
`errorRetryDelay`. -/
theorem C2_dispatch_failure_aborts_batch_witness :
    failingSecondEnv.fetchResult =
      .ok [batchListing1, batchListing2, batchListing3] ∧
    failingSecondEnv.executorFails batchListing1 = false ∧
    failingSecondEnv.executorFails batchListing2 = true ∧
    (monitorCycle DEFAULT_CONFIG failingSecondEnv).invoked =
      [batchListing1, batchListing2] ∧
    batchListing3 ∉ (monitorCycle DEFAULT_CONFIG failingSecondEnv).invoked ∧
    (monitorCycle DEFAULT_CONFIG failingSecondEnv).monitoringErrorLogged = true ∧
    (monitorCycle DEFAULT_CONFIG failingSecondEnv).sleep =
      DEFAULT_CONFIG.errorRetryDelay :=
  ⟨rfl, by decide, by decide,
   (C2_dispatch_failure_aborts_batch DEFAULT_CONFIG failingSecondEnv
     batchListing1 batchListing2 batchListing3 _
     rfl (by decide) rfl (by decide) (by decide) (by decide)).1,
   (C2_dispatch_failure_aborts_batch DEFAULT_CONFIG failingSecondEnv
     batchListing1 batchListing2 batchListing3 _
     rfl (by decide) rfl (by decide) (by decide) (by decide)).2.1,
   (C2_dispatch_failure_aborts_batch DEFAULT_CONFIG failingSecondEnv
     batchListing1 batchListing2 batchListing3 _
     rfl (by decide) rfl (by decide) (by decide) (by decide)).2.2.1,
   (C2_dispatch_failure_aborts_batch DEFAULT_CONFIG failingSecondEnv
     batchListing1 batchListing2 batchListing3 _
     rfl (by decide) rfl (by decide) (by decide) (by decide)).2.2.2.1⟩

/-- Cycle environment whose fetch fails. -/
def fetchFailEnv : CycleEnv where
  fetchResult := .error "network error"
  executorFails := fun _ => false

/-- C3 counterexample: under the default configuration
(pollingInterval 60000 ms, errorRetryDelay 30000 ms) a failing fetch
leads to a sleep of pollingInterval = 60000 ms, not the claimed
errorRetryDelay interval: `fetchNewListings` swallows the failure and
returns an empty batch, so the `errorRetryDelay` catch never fires. -/
theorem C3_counterexample_sleep_is_polling_interval :
    (monitorCycle DEFAULT_CONFIG fetchFailEnv).sleep = 60000 ∧
    DEFAULT_CONFIG.errorRetryDelay = 30000 ∧
    (monitorCycle DEFAULT_CONFIG fetchFailEnv).sleep ≠
      DEFAULT_CONFIG.errorRetryDelay := by
  decide

/-- C3 amended: a failing listing-fetch does not propagate out of
`monitorCollection`: it is caught inside `fetchNewListings`, which logs
the failure and returns an empty batch; the cycle dispatches nothing,
sleeps one `pollingInterval` (not `errorRetryDelay`), and the loop
attempts FETCH again on the next cycle. -/
theorem C3_fetch_failure_absorbed (cfg : Config) (env : CycleEnv) (msg : String)
    (hf : env.fetchResult = .error msg) :
    (monitorCycle cfg env).fetchFailureLogged = true ∧
    (monitorCycle cfg env).invoked = [] ∧
    (monitorCycle cfg env).monitoringErrorLogged = false ∧
    (monitorCycle cfg env).sleep = cfg.pollingInterval ∧
    (∀ rest, monitorRun cfg (env :: rest) =
      monitorCycle cfg env :: monitorRun cfg rest) := by
  simp [monitorCycle, fetchNewListings, hf, dispatchBatch, monitorRun]

/-- C3 amended witness: the concrete failing-fetch environment — the
failure is logged, nothing is dispatched, and the sleep is one
`pollingInterval`. -/
theorem C3_fetch_failure_absorbed_witness :
    fetchFailEnv.fetchResult = .error "network error" ∧
    (monitorCycle DEFAULT_CONFIG fetchFailEnv).fetchFailureLogged = true ∧
    (monitorCycle DEFAULT_CONFIG fetchFailEnv).invoked = [] ∧
    (monitorCycle DEFAULT_CONFIG fetchFailEnv).monitoringErrorLogged = false ∧
    (monitorCycle DEFAULT_CONFIG fetchFailEnv).sleep =
      DEFAULT_CONFIG.pollingInterval :=
  ⟨rfl,
   (C3_fetch_failure_absorbed DEFAULT_CONFIG fetchFailEnv "network error" rfl).1,
   (C3_fetch_failure_absorbed DEFAULT_CONFIG fetchFailEnv "network error" rfl).2.1,
   (C3_fetch_failure_absorbed DEFAULT_CONFIG fetchFailEnv "network error"
     rfl).2.2.1,
   (C3_fetch_failure_absorbed DEFAULT_CONFIG fetchFailEnv "network error"
     rfl).2.2.2.1⟩

/-- An order object as returned by the listings endpoint; only its
`protocol_data` payload is consumed downstream. -/
structure Order where
  protocol_data : String
deriving DecidableEq, Repr

/-- Errors `buyNow` throws (lines 107-151); each corresponds to one
`throw new Error(...)` site. -/
inductive BuyError where
  | noOrderFound
  | invalidOrder
  | gasPriceExceeded (gasPriceWei : ℕ)
  | transactionFailed
deriving DecidableEq, Repr

/-- `fetchListingOrder` (lines 221-231): on HTTP failure the error is
caught and `null` returned; on success `response.data.orders?.[0]`,
i.e. the head of the orders array when non-empty. -/
def fetchListingOrder (r : Except String (List Order)) : Option Order :=
  match r with
  | .error _ => none
  | .ok orders => orders.head?

/-- External values consumed by one `buyNow` call: the listings-endpoint
response, the Seaport validation verdict, the provider gas price (wei),
and the receipt status of the submitted transaction. -/
structure BuyEnv where
  listingsResponse : Except String (List Order)
  isValid : Bool
  currentGasPrice : ℕ
  receiptStatus : ℕ
  txHash : String
deriving Repr

/-- Which side-effecting steps of `buyNow` were reached. -/
structure BuyTrace where
  validated : Bool
  fulfillmentBuilt : Bool
  transactionSent : Bool
deriving DecidableEq, Repr

/-- The structured result of a successful purchase (lines 141-145). -/
structure BuyResult where
  txHash : String
  nftId : String
  price : ℚ
deriving DecidableEq, Repr

/-- The gas guard of `buyNow` (lines 127-130):
`if (currentGasPrice.gt(this.maxGasPriceWei)) throw` — fails exactly when
the current gas price is strictly above the ceiling. -/
def checkGas (currentGasPrice maxGasPriceWei : ℕ) : Except BuyError Unit :=
  if currentGasPrice > maxGasPriceWei then
    .error (.gasPriceExceeded currentGasPrice)
  else
    .ok ()

/-- `buyNow` (lines 107-151): fetch the first listing order (throwing
`No valid order found` when absent), validate it, build the fulfillment
transaction, apply the gas guard, submit, and fail on a zero receipt
status.  The catch at line 147 logs and re-throws, so every error
surfaces to the caller.  Returns the outcome and the step trace. -/
def buyNow (env : BuyEnv) (maxGasPriceWei : ℕ) (tokenId : String) (priceEth : ℚ) :
    Except BuyError BuyResult × BuyTrace :=
  match fetchListingOrder env.listingsResponse with
  | none => (.error .noOrderFound, ⟨false, false, false⟩)
  | some _ =>
    if env.isValid = false then
      (.error .invalidOrder, ⟨true, false, false⟩)
    else
      match checkGas env.currentGasPrice maxGasPriceWei with
      | .error e => (.error e, ⟨true, true, false⟩)
      | .ok _ =>
        if env.receiptStatus = 0 then
          (.error .transactionFailed, ⟨true, true, true⟩)
        else
          (.ok ⟨env.txHash, tokenId, priceEth⟩, ⟨true, true, true⟩)

/-- C4: the gas guard fails with a gas-price-exceeded error iff the
current gas price is strictly greater than the ceiling; within `buyNow`
(order present and valid) a strictly higher gas price means the
transaction is not submitted, while gas price ≤ ceiling (equality
included) proceeds to submission. -/
theorem C4_gas_guard_boundary (env : BuyEnv) (maxGas : ℕ) (o : Order)
    (tokenId : String) (p : ℚ)
    (horder : fetchListingOrder env.listingsResponse = some o)
    (hvalid : env.isValid = true) :
    (checkGas env.currentGasPrice maxGas =
        .error (.gasPriceExceeded env.currentGasPrice) ↔
      env.currentGasPrice > maxGas) ∧
    (checkGas env.currentGasPrice maxGas = .ok () ↔
      env.currentGasPrice ≤ maxGas) ∧
    (env.currentGasPrice > maxGas →
      (buyNow env maxGas tokenId p).1 =
          .error (.gasPriceExceeded env.currentGasPrice) ∧
      (buyNow env maxGas tokenId p).2.transactionSent = false) ∧
    (env.currentGasPrice ≤ maxGas →
      (buyNow env maxGas tokenId p).2.transactionSent = true) := by
  refine ⟨?_, ?_, ?_, ?_⟩
  · constructor
    · intro h
      by_contra hc
      simp [checkGas, hc] at h
    · intro h
      simp [checkGas, h]
  · constructor
    · intro h
      by_contra hc
      simp [checkGas, not_le.mp hc] at h
    · intro h
      simp [checkGas, not_lt.mpr h]
  · intro h
    constructor <;>
      simp [buyNow, horder, hvalid, checkGas, h]
  · intro h
    by_cases hr : env.receiptStatus = 0 <;>
      simp [buyNow, horder, hvalid, checkGas, not_lt.mpr h, hr]

/-- Environment in which an order exists and validates, gas price 30
gwei in wei against a 50 gwei ceiling. -/
def gasOkEnv : BuyEnv where
  listingsResponse := .ok [⟨"order-data"⟩]
  isValid := true
  currentGasPrice := 30000000000
  receiptStatus := 1
  txHash := "0xtx"

/-- C4 witness: at 30 gwei against a 50 gwei ceiling the guard accepts
and the transaction is submitted. -/
theorem C4_gas_guard_boundary_witness :
    fetchListingOrder gasOkEnv.listingsResponse = some ⟨"order-data"⟩ ∧
    gasOkEnv.isValid = true ∧
    gasOkEnv.currentGasPrice ≤ 50000000000 ∧
    checkGas gasOkEnv.currentGasPrice 50000000000 = .ok () ∧
    (buyNow gasOkEnv 50000000000 "42" (1/20)).2.transactionSent = true :=
  ⟨rfl, rfl, by decide,
   (C4_gas_guard_boundary gasOkEnv 50000000000 ⟨"order-data"⟩ "42" (1/20)
     rfl rfl).2.1.mpr (by decide),
   (C4_gas_guard_boundary gasOkEnv 50000000000 ⟨"order-data"⟩ "42" (1/20)
     rfl rfl).2.2.2 (by decide)⟩

/-- C5: when the query service returns no active listing order (HTTP
failure or empty orders array), `buyNow` fails with the no-order-found
error and no step is reached: no validation, no fulfillment build, no
transaction submission. -/
theorem C5_no_order_no_submission (env : BuyEnv) (maxGas : ℕ)
    (tokenId : String) (p : ℚ)
    (h : fetchListingOrder env.listingsResponse = none) :
    (buyNow env maxGas tokenId p).1 = .error .noOrderFound ∧
    (buyNow env maxGas tokenId p).2.validated = false ∧
    (buyNow env maxGas tokenId p).2.fulfillmentBuilt = false ∧
    (buyNow env maxGas tokenId p).2.transactionSent = false := by
  simp [buyNow, h]

/-- Environment whose listings endpoint returns an empty orders array. -/
def noOrderEnv : BuyEnv where
  listingsResponse := .ok []
  isValid := true
  currentGasPrice := 30000000000
  receiptStatus := 1
  txHash := "0xtx"

/-- C5 witness: the empty-orders environment. -/
theorem C5_no_order_no_submission_witness :
    fetchListingOrder noOrderEnv.listingsResponse = none ∧
    ((buyNow noOrderEnv 50000000000 "42" (1/20)).1 = .error .noOrderFound ∧
     (buyNow noOrderEnv 50000000000 "42" (1/20)).2.validated = false ∧
     (buyNow noOrderEnv 50000000000 "42" (1/20)).2.fulfillmentBuilt = false ∧
     (buyNow noOrderEnv 50000000000 "42" (1/20)).2.transactionSent = false) :=
  ⟨rfl, C5_no_order_no_submission noOrderEnv 50000000000 "42" (1/20) rfl⟩

/-- Wallet-facing WETH state seen by `wrapEthIfNeeded`: the wallet's
current WETH balance and the log of deposit (wrap) transaction amounts
submitted so far. -/
structure WethState where
  wethBalance : ℕ
  deposits : List ℕ
deriving DecidableEq, Repr

/-- `wrapEthIfNeeded` (lines 233-247): read the WETH balance; when
`wethBalance.lt(requiredWei)`, deposit exactly
`requiredWei.sub(wethBalance)` and wait for confirmation — the deposit
credits the balance by the wrapped amount.  Otherwise do nothing. -/
def wrapEthIfNeeded (requiredWei : ℕ) (s : WethState) : WethState :=
  if s.wethBalance < requiredWei then
    { wethBalance := s.wethBalance + (requiredWei - s.wethBalance),
      deposits := s.deposits ++ [requiredWei - s.wethBalance] }
  else
    s

/-- C7: `wrapEthIfNeeded` wraps only when the WETH balance is strictly
below the required amount, and then exactly the deficit; with a
sufficient balance it performs no wrapping transaction; two successive
calls perform at most one wrapping transaction total, the second being a
no-op. -/
theorem C7_wrap_exact_deficit_idempotent (required : ℕ) (s : WethState) :
    (s.wethBalance < required →
      (wrapEthIfNeeded required s).deposits =
        s.deposits ++ [required - s.wethBalance] ∧
      (wrapEthIfNeeded required s).wethBalance = required) ∧
    (required ≤ s.wethBalance → wrapEthIfNeeded required s = s) ∧
    wrapEthIfNeeded required (wrapEthIfNeeded required s) =
      wrapEthIfNeeded required s ∧
    (wrapEthIfNeeded required (wrapEthIfNeeded required s)).deposits.length ≤
      s.deposits.length + 1 := by
  by_cases h : s.wethBalance < required
  · have hbal : s.wethBalance + (required - s.wethBalance) = required := by omega
    refine ⟨fun _ => ⟨by simp [wrapEthIfNeeded, h], ?_⟩,
            fun hle => absurd h (not_lt.mpr hle), ?_, ?_⟩
    · simp [wrapEthIfNeeded, h, hbal]
    · simp [wrapEthIfNeeded, h, hbal]
    · simp [wrapEthIfNeeded, h, hbal]
  · refine ⟨fun hlt => absurd hlt h, fun _ => by simp [wrapEthIfNeeded, h], ?_, ?_⟩
    · simp [wrapEthIfNeeded, h]
    · simp [wrapEthIfNeeded, h]

/-- C7 witness: balance 40 wei against a requirement of 100 wei — the
deficit of 60 is wrapped, and a repeat call does nothing. -/
theorem C7_wrap_exact_deficit_idempotent_witness :
    (⟨40, []⟩ : WethState).wethBalance < 100 ∧
    (wrapEthIfNeeded 100 ⟨40, []⟩).deposits = [] ++ [100 - 40] ∧
    (wrapEthIfNeeded 100 ⟨40, []⟩).wethBalance = 100 ∧
    wrapEthIfNeeded 100 (wrapEthIfNeeded 100 ⟨40, []⟩) =
      wrapEthIfNeeded 100 ⟨40, []⟩ ∧
    (wrapEthIfNeeded 100 (wrapEthIfNeeded 100 ⟨40, []⟩)).deposits.length ≤
      ([] : List ℕ).length + 1 :=
  ⟨by decide,
   ((C7_wrap_exact_deficit_idempotent 100 ⟨40, []⟩).1 (by decide)).1,
   ((C7_wrap_exact_deficit_idempotent 100 ⟨40, []⟩).1 (by decide)).2,
   (C7_wrap_exact_deficit_idempotent 100 ⟨40, []⟩).2.2.1,
   (C7_wrap_exact_deficit_idempotent 100 ⟨40, []⟩).2.2.2⟩

/-- WETH allowance state seen by `approveWeth`: the allowance currently
granted to the Seaport contract and the log of approval transaction
amounts submitted so far. -/
structure AllowanceState where
  allowance : ℕ
  approvals : List ℕ
deriving DecidableEq, Repr

/-- `approveWeth` (lines 249-262): read the allowance granted to
`SEAPORT_ADDRESS`; when `currentAllowance.lt(amountWei)`, submit
`approve(SEAPORT_ADDRESS, amountWei)` and wait — an ERC-20 approve sets
the allowance to exactly the approved amount.  Otherwise do nothing. -/
def approveWeth (amountWei : ℕ) (s : AllowanceState) : AllowanceState :=
  if s.allowance < amountWei then
    { allowance := amountWei, approvals := s.approvals ++ [amountWei] }
  else
    s

/-- C8: `approveWeth` is a no-op whenever the current allowance is at
least the required amount; when the allowance is strictly below it, it
submits exactly one approval transaction for exactly the required
amount. -/
theorem C8_allowance_exact_or_noop (amount : ℕ) (s : AllowanceState) :
    (amount ≤ s.allowance → approveWeth amount s = s) ∧
    (s.allowance < amount →
      (approveWeth amount s).approvals = s.approvals ++ [amount] ∧
      (approveWeth amount s).allowance = amount) := by
  by_cases h : s.allowance < amount
  · exact ⟨fun hle => absurd h (not_lt.mpr hle),
           fun _ => ⟨by simp [approveWeth, h], by simp [approveWeth, h]⟩⟩
  · exact ⟨fun _ => by simp [approveWeth, h], fun hlt => absurd hlt h⟩

/-- C8 witness: allowance 500 against a requirement of 200 — no
approval transaction is submitted; allowance 100 against 200 — one
approval for exactly 200. -/
theorem C8_allowance_exact_or_noop_witness :
    (200 ≤ (⟨500, []⟩ : AllowanceState).allowance ∧
     approveWeth 200 ⟨500, []⟩ = ⟨500, []⟩) ∧
    ((⟨100, []⟩ : AllowanceState).allowance < 200 ∧
     (approveWeth 200 ⟨100, []⟩).approvals = [] ++ [200] ∧
     (approveWeth 200 ⟨100, []⟩).allowance = 200) :=
  ⟨⟨by decide, (C8_allowance_exact_or_noop 200 ⟨500, []⟩).1 (by decide)⟩,
   ⟨by decide, (C8_allowance_exact_or_noop 200 ⟨100, []⟩).2 (by decide)⟩⟩

/-- `WETH_ADDRESS` from `config.js`. -/
def WETH_ADDRESS : String := "Example-0xC02aaA39b223FE8D0A0e5C4F27eAD9083C756Cc2"

/-- `SEAPORT_ADDRESS` from `config.js`. -/
def SEAPORT_ADDRESS : String := "Example-0x00000000000001ad428e4906aE43D8F9852d0dD6"

/-- Royalty recipient and rate, as returned by `getRoyaltyInfo`. -/
structure RoyaltyInfo where
  recipient : String
  basisPoints : ℕ
deriving DecidableEq, Repr

/-- The hardcoded fallback royalty info of `makeOffer` (lines 171-174). -/
def fallbackRoyaltyInfo : RoyaltyInfo where
  recipient := "0x0000a26b00c1F0DF003000390027140000fAa719"
  basisPoints := 1000

/-- `getRoyaltyInfo` (lines 264-277): returns the payout address and
dev-seller-fee basis points of the contract, or `null` when the lookup
fails (the bare `catch` swallows every error). -/
def getRoyaltyInfo (r : Except String RoyaltyInfo) : Option RoyaltyInfo :=
  match r with
  | .ok info => some info
  | .error _ => none

/-- Seaport `ItemType.ERC20`. -/
def itemTypeERC20 : ℕ := 1

/-- Seaport `ItemType.ERC721`. -/
def itemTypeERC721 : ℕ := 2

/-- One entry of the `offer` array passed to `createOrder`. -/
structure OfferItem where
  itemType : ℕ
  token : String
  amount : ℕ
deriving DecidableEq, Repr

/-- One entry of the `consideration` array passed to `createOrder`;
fields the code does not set stay absent (`none`). -/
structure ConsiderationItem where
  itemType : ℕ
  token : String
  identifier : Option String := none
  amount : Option ℕ := none
  recipient : String
deriving DecidableEq, Repr

/-- The argument record of `seaport.createOrder`. -/
structure OrderTerms where
  offer : List OfferItem
  consideration : List ConsiderationItem
  endTime : ℕ
deriving DecidableEq, Repr

/-- The `createOrder` terms built by `makeOffer` (lines 177-201): one
ERC-20 offer item for the full wei amount; consideration legs (a) the
target NFT to the bot's own wallet and (b) a WETH royalty leg of
`offerAmountWei.mul(royaltyInfo.basisPoints).div(10000)` to the royalty
recipient — BigNumber `div` is integer division truncating toward
zero. -/
def buildOfferTerms (assetContract tokenId : String) (offerAmountWei : ℕ)
    (royaltyInfo : RoyaltyInfo) (walletAddress : String) (endTime : ℕ) :
    OrderTerms where
  offer := [{ itemType := itemTypeERC20, token := WETH_ADDRESS,
              amount := offerAmountWei }]
  consideration :=
    [{ itemType := itemTypeERC721, token := assetContract,
       identifier := some tokenId, recipient := walletAddress },
     { itemType := itemTypeERC20, token := WETH_ADDRESS,
       amount := some (offerAmountWei * royaltyInfo.basisPoints / 10000),
       recipient := royaltyInfo.recipient }]
  endTime := endTime

/-- The amount of the royalty consideration leg (second entry of the
consideration array) of built order terms. -/
def royaltyLegAmount (t : OrderTerms) : Option ℕ :=
  match t.consideration.get? 1 with
  | some item => item.amount
  | none => none

/-- C6: the royalty consideration leg equals
floor(offerAmount * basisPoints / 10000) in base units — truncating
integer division, never rounding up — and for basisPoints = 1000,
offerAmount = 1000000 base units the leg is 100000. -/
theorem C6_royalty_leg_truncation (assetContract tokenId walletAddress : String)
    (offerAmountWei : ℕ) (info : RoyaltyInfo) (endTime : ℕ) :
    royaltyLegAmount
        (buildOfferTerms assetContract tokenId offerAmountWei info
          walletAddress endTime) =
      some (offerAmountWei * info.basisPoints / 10000) ∧
    offerAmountWei * info.basisPoints / 10000 =
      Nat.floor ((offerAmountWei * info.basisPoints : ℚ) / 10000) ∧
    (offerAmountWei * info.basisPoints / 10000) * 10000 ≤
      offerAmountWei * info.basisPoints ∧
    offerAmountWei * info.basisPoints <
      (offerAmountWei * info.basisPoints / 10000 + 1) * 10000 ∧
    royaltyLegAmount
        (buildOfferTerms assetContract tokenId 1000000
          ⟨walletAddress, 1000⟩ walletAddress endTime) =
      some 100000 := by
  refine ⟨rfl, ?_, ?_, ?_, by norm_num [royaltyLegAmount, buildOfferTerms]⟩
  · rw [Nat.floor_div_ofNat, ← Nat.cast_mul, Nat.floor_natCast]
  · have := Nat.div_add_mod (offerAmountWei * info.basisPoints) 10000
    have := Nat.mod_lt (offerAmountWei * info.basisPoints)
      (show 0 < 10000 by norm_num)
    omega
  · have := Nat.div_add_mod (offerAmountWei * info.basisPoints) 10000
    have := Nat.mod_lt (offerAmountWei * info.basisPoints)
      (show 0 < 10000 by norm_num)
    omega

/-- `ethers.utils.parseEther(x.toString())`: ether to wei.  For the
exactly-representable decimal amounts the bot produces this is
multiplication by 10^18. -/
def parseEtherWei (x : ℚ) : ℕ := (x * 10 ^ 18).floor.toNat

/-- The structured result of a successful offer (lines 207-211);
expiration kept in epoch seconds. -/
structure OfferResult where
  orderHash : String
  offerAmount : ℚ
  expirationSeconds : ℕ
deriving DecidableEq, Repr

/-- External values consumed by one `makeOffer` call: the royalty
endpoint response, the offer-posting response (`order_hash` or a
rejection), and the clock reading in epoch seconds. -/
structure OfferEnv where
  royaltyResponse : Except String RoyaltyInfo
  postResult : Except String String
  nowSeconds : ℕ

/-- `makeOffer` (lines 160-217): parse the ether amount to wei, ensure
WETH funds, ensure the Seaport allowance, resolve royalty info
substituting the hardcoded fallback when the lookup failed (the JS
`||`), compute the expiration, build the `createOrder` terms, sign and
post.  Returns the outcome, the terms built, and the updated WETH and
allowance states. -/
def makeOffer (assetContract tokenId : String) (offerAmountEth : ℚ)
    (expirationDays : ℕ) (walletAddress : String) (env : OfferEnv)
    (weth : WethState) (allow : AllowanceState) :
    Except String OfferResult × OrderTerms × WethState × AllowanceState :=
  let offerAmountWei := parseEtherWei offerAmountEth
  let weth2 := wrapEthIfNeeded offerAmountWei weth
  let allow2 := approveWeth offerAmountWei allow
  let royaltyInfo := (getRoyaltyInfo env.royaltyResponse).getD fallbackRoyaltyInfo
  let endTime := env.nowSeconds + expirationDays * 86400
  let terms := buildOfferTerms assetContract tokenId offerAmountWei
    royaltyInfo walletAddress endTime
  match env.postResult with
  | .ok orderHash => (.ok ⟨orderHash, offerAmountEth, endTime⟩, terms, weth2, allow2)
  | .error e => (.error e, terms, weth2, allow2)

/-- C9: when the royalty lookup fails, `makeOffer` never surfaces the
failure: it substitutes the fallback royalty info (hardcoded default
recipient, 1000 basis points) and continues to construct and submit the
offer, succeeding whenever the posting step succeeds. -/
theorem C9_royalty_fallback_absorbed (assetContract tokenId : String)
    (amount : ℚ) (days : ℕ) (wallet : String) (env : OfferEnv)
    (w : WethState) (al : AllowanceState) (msg hash : String)
    (hfail : env.royaltyResponse = .error msg)
    (hpost : env.postResult = .ok hash) :
    (makeOffer assetContract tokenId amount days wallet env w al).1 =
      .ok ⟨hash, amount, env.nowSeconds + days * 86400⟩ ∧
    (makeOffer assetContract tokenId amount days wallet env w al).2.1 =
      buildOfferTerms assetContract tokenId (parseEtherWei amount)
        fallbackRoyaltyInfo wallet (env.nowSeconds + days * 86400) ∧
    fallbackRoyaltyInfo.recipient =
      "0x0000a26b00c1F0DF003000390027140000fAa719" ∧
    fallbackRoyaltyInfo.basisPoints = 1000 := by
  refine ⟨?_, ?_, rfl, rfl⟩ <;>
    simp [makeOffer, getRoyaltyInfo, hfail, hpost]

/-- Offer environment with a failing royalty lookup and a successful
posting step. -/
def royaltyFailEnv : OfferEnv where
  royaltyResponse := .error "lookup failed"
  postResult := .ok "0xorderhash"
  nowSeconds := 1700000000

/-- C9 witness: concrete failing-lookup environment; the offer for
0.16 ETH is posted with the fallback royalty info. -/
theorem C9_royalty_fallback_absorbed_witness :
    (royaltyFailEnv.royaltyResponse = .error "lookup failed" ∧
     royaltyFailEnv.postResult = .ok "0xorderhash") ∧
    ((makeOffer "0xabc" "42" (4/25) 7 "0xwallet" royaltyFailEnv
        ⟨0, []⟩ ⟨0, []⟩).1 =
      .ok ⟨"0xorderhash", 4/25, royaltyFailEnv.nowSeconds + 7 * 86400⟩ ∧
     (makeOffer "0xabc" "42" (4/25) 7 "0xwallet" royaltyFailEnv
        ⟨0, []⟩ ⟨0, []⟩).2.1 =
      buildOfferTerms "0xabc" "42" (parseEtherWei (4/25))
        fallbackRoyaltyInfo "0xwallet" (royaltyFailEnv.nowSeconds + 7 * 86400) ∧
     fallbackRoyaltyInfo.recipient =
       "0x0000a26b00c1F0DF003000390027140000fAa719" ∧
     fallbackRoyaltyInfo.basisPoints = 1000) :=
  ⟨⟨rfl, rfl⟩,
   C9_royalty_fallback_absorbed "0xabc" "42" (4/25) 7 "0xwallet"
     royaltyFailEnv ⟨0, []⟩ ⟨0, []⟩ "lookup failed" "0xorderhash" rfl rfl⟩

/-- The constructed bot instance: exactly the properties the
constructor assigns (lines 19-30), plus `openseaApiKey`, the instance
property read by `fetchNewListings`, `fetchListingOrder`,
`getRoyaltyInfo` and `postOfferToOpenSea` as the `X-API-KEY` header.
The constructor receives `openseaApiKey` as a parameter but never
assigns `this.openseaApiKey`, so on every instance the property is
`undefined`, modelled as `none`. -/
structure OpenSeaBot where
  providerUrl : String
  walletKey : String
  config : Config
  maxGasPriceWei : ℕ
  openseaApiKey : Option String
deriving DecidableEq, Repr

/-- `ethers.utils.parseUnits(x.toString(), 'gwei')`: gwei to wei. -/
def parseUnitsGwei (x : ℕ) : ℕ := x * 10 ^ 9

/-- The `OpenSeaBot` constructor (lines 14-31): throws when privateKey
or infuraUrl is missing (falsy, modelled as the empty string); merges
the config overrides over the defaults and derives the wei gas ceiling.
The `openseaApiKey` parameter is dropped: no line of the constructor
stores it on the instance. -/
def mkOpenSeaBot (privateKey infuraUrl : String) ( openseaApiKey : Option String)
    (config : ConfigOverride) : Except String OpenSeaBot :=
  if privateKey = "" ∨ infuraUrl = "" then
    .error "Missing required constructor parameters"
  else
    .ok { providerUrl := infuraUrl
          walletKey := privateKey
          config := mergeConfig config
          maxGasPriceWei := parseUnitsGwei (mergeConfig config).maxGasPrice
          openseaApiKey := none }

/-- The value sent as the `X-API-KEY` header by every marketplace
request helper: `this.openseaApiKey`. -/
def apiKeyHeader (b : OpenSeaBot) : Option String := b.openseaApiKey

/-- C10: the constructor never stores its openseaApiKey parameter, so
two bots constructed with different API key arguments are identical,
and every constructed bot reads `this.openseaApiKey` as undefined and
sends an undefined `X-API-KEY` header. -/
theorem C10_api_key_never_stored (privateKey infuraUrl : String)
    (k1 k2 : Option String) (config : ConfigOverride) :
    mkOpenSeaBot privateKey infuraUrl k1 config =
      mkOpenSeaBot privateKey infuraUrl k2 config ∧
    (∀ b, mkOpenSeaBot privateKey infuraUrl k1 config = .ok b →
      b.openseaApiKey = none ∧ apiKeyHeader b = none) := by
  refine ⟨rfl, fun b hb => ?_⟩
  unfold mkOpenSeaBot at hb
  by_cases h : privateKey = "" ∨ infuraUrl = ""
  · simp [h] at hb
  · simp [h] at hb
    simp [apiKeyHeader, ← hb]

/-- The instance the witness construction produces. -/
def witnessBot : OpenSeaBot where
  providerUrl := "https://node.example"
  walletKey := "0xprivkey"
  config := mergeConfig {}
  maxGasPriceWei := parseUnitsGwei (mergeConfig {}).maxGasPrice
  openseaApiKey := none

/-- C10 witness: a bot built with a real API key argument equals one
built with none, and its stored key and header are undefined. -/
theorem C10_api_key_never_stored_witness :
    mkOpenSeaBot "0xprivkey" "https://node.example" (some "valid-api-key") {} =
      mkOpenSeaBot "0xprivkey" "https://node.example" none {} ∧
    mkOpenSeaBot "0xprivkey" "https://node.example" (some "valid-api-key") {} =
      .ok witnessBot ∧
    witnessBot.openseaApiKey = none ∧
    apiKeyHeader witnessBot = none :=
  ⟨(C10_api_key_never_stored "0xprivkey" "https://node.example"
      (some "valid-api-key") none {}).1,
   rfl,
   (C10_api_key_never_stored "0xprivkey" "https://node.example"
      (some "valid-api-key") none {}).2 witnessBot rfl⟩

end Milton
